import Mathlib

/-!
Verification of the stablecoin-creation flow of the STABLEFUN repository.

The repository ships two revisions of the `CreateStablecoin` component in
one file (`src/components/CreateStablecoin.tsx`).  We embed both:
* `handleSubmitV1` — the first revision: it parses the bond mint before any
  network call and builds the create-stablecoin instruction (decimals 9)
  through the `StablecoinProgram` class.
* `handleSubmit` — the second revision: it fetches the latest blockhash,
  constructs the transaction bound to fee payer and blockhash, fetches the
  rent-exempt minimum, appends the three instructions (parsing the bond
  mint while building the third), signs, sends and confirms (decimals 6).

`StablecoinProgram.createStablecoin` and `StablecoinProgram.sendTransaction`
come from `src/utils/stablecoin-program.ts`, `checkBondBalance` from the
second revision of the component.  Network interaction is modelled by an
environment (`RpcEnv`) supplying the responses, and each run records the
network calls made (`NetCall` trace) and the envelope-building events
(`TxEvent` trace).
-/

/-- A ledger address, identified by its base58 rendering
(`@solana/web3.js` `PublicKey`). -/
structure Pubkey where
  base58 : String
deriving DecidableEq

/-- The base58 alphabet used by `bs58.decode` inside `new PublicKey`. -/
def base58Chars : List Char :=
  "123456789ABCDEFGHJKLMNPQRSTUVWXYZabcdefghijkmnopqrstuvwxyz".toList

/-- Index of a character in the base58 alphabet, `none` when invalid. -/
def base58Index (c : Char) : Option Nat :=
  let i := List.findIdx (fun x => x == c) base58Chars
  if i < base58Chars.length then some i else none

/-- The numeric value of a base58 string, `none` on an invalid character. -/
def base58DecodeNat (s : String) : Option Nat :=
  s.toList.foldl
    (fun acc c =>
      match acc, base58Index c with
      | some a, some i => some (a * 58 + i)
      | _, _ => none)
    (some 0)

/-- Leading `'1'` characters decode to leading zero bytes. -/
def leadingOnes (s : String) : Nat :=
  (s.toList.takeWhile (fun c => c == '1')).length

/-- Number of bytes in the big-endian rendering of `n` (fuelled). -/
def natByteLenAux : Nat → Nat → Nat
  | 0, _ => 0
  | fuel + 1, n => if n = 0 then 0 else natByteLenAux fuel (n / 256) + 1

/-- Number of bytes in the big-endian rendering of `n`. -/
def natByteLen (n : Nat) : Nat := natByteLenAux 128 n

/-- `new PublicKey(s)`: base58-decode `s` and require exactly 32 bytes;
`none` models the constructor throwing. -/
def parsePubkey (s : String) : Option Pubkey :=
  match base58DecodeNat s with
  | none => none
  | some n => if leadingOnes s + natByteLen n = 32 then some ⟨s⟩ else none

/-- `TOKEN_PROGRAM_ID` from `@solana/spl-token`. -/
def TOKEN_PROGRAM_ID : Pubkey := ⟨"TokenkegQfeZyiNwAJbNbGKPFXCWuBvf9Ss623VQ5DA"⟩

/-- `SystemProgram.programId` from `@solana/web3.js`. -/
def systemProgramId : Pubkey := ⟨"11111111111111111111111111111111"⟩

/-- `SYSVAR_RENT_PUBKEY` from `@solana/web3.js`. -/
def SYSVAR_RENT_PUBKEY : Pubkey := ⟨"SysvarRent111111111111111111111111111111111"⟩

/-- `PROGRAM_ID` exported by `src/utils/stablecoin-program.ts`. -/
def PROGRAM_ID : Pubkey := ⟨"CGnwq4D9qErCRjPujz5MVkMaixR8BLRACpAmLWsqoRRe"⟩

/-- `MINT_SIZE` from `@solana/spl-token` (bytes of a mint account). -/
def MINT_SIZE : Nat := 82

/-- A ledger instruction, as built by the three builders the flow uses. -/
inductive Instruction
  /-- `SystemProgram.createAccount({fromPubkey, newAccountPubkey, space,
  lamports, programId})`. -/
  | createAccount (fromPubkey newAccountPubkey : Pubkey)
      (space lamports : Nat) (programId : Pubkey)
  /-- `createInitializeMintInstruction(mint, decimals, mintAuthority,
  freezeAuthority)`. -/
  | initializeMint (mint : Pubkey) (decimals : Nat)
      (mintAuthority freezeAuthority : Pubkey)
  /-- `program.methods.createStablecoin(name, symbol, decimals, iconUrl,
  targetCurrency).accounts({...}).instruction()`: the argument tuple plus
  the ordered bound account list. -/
  | createStablecoinIx (name symbol : String) (decimals : Nat)
      (iconUrl targetCurrency : String) (accounts : List Pubkey)
deriving DecidableEq

/-- The three instruction kinds, for stating order properties. -/
inductive IxKind
  | createAccount
  | initializeMint
  | createStablecoin
deriving DecidableEq

/-- Kind of an instruction. -/
def Instruction.kind : Instruction → IxKind
  | .createAccount .. => .createAccount
  | .initializeMint .. => .initializeMint
  | .createStablecoinIx .. => .createStablecoin

/-- The `decimals` argument an instruction carries, when it has one. -/
def Instruction.decimalsArg : Instruction → Option Nat
  | .createAccount .. => none
  | .initializeMint _ d _ _ => some d
  | .createStablecoinIx _ _ d _ _ _ => some d

/-- The bound account list of a create-stablecoin instruction. -/
def Instruction.boundAccounts : Instruction → Option (List Pubkey)
  | .createStablecoinIx _ _ _ _ _ accs => some accs
  | _ => none

/-- The accounts object passed to `.accounts({...})` for the
create-stablecoin instruction, field names as in the source. -/
structure CreateStablecoinAccounts where
  authority : Pubkey
  stablecoinData : Pubkey
  stablecoinMint : Pubkey
  bondMint : Pubkey
  tokenProgram : Pubkey
  systemProgram : Pubkey
  rent : Pubkey
deriving DecidableEq

/-- `program.methods.createStablecoin(name, symbol, decimals, iconUrl,
targetCurrency).accounts({authority, stablecoinData, stablecoinMint,
bondMint, tokenProgram, systemProgram, rent}).instruction()`, binding the
accounts in exactly that order. -/
def anchorCreateStablecoin (name symbol : String) (decimals : Nat)
    (iconUrl targetCurrency : String) (accs : CreateStablecoinAccounts) :
    Instruction :=
  .createStablecoinIx name symbol decimals iconUrl targetCurrency
    [accs.authority, accs.stablecoinData, accs.stablecoinMint, accs.bondMint,
     accs.tokenProgram, accs.systemProgram, accs.rent]

/-- Parameters of `StablecoinProgram.createStablecoin`
(`src/utils/stablecoin-program.ts`, lines 76–86). -/
structure CreateStablecoinParams where
  name : String
  symbol : String
  decimals : Nat
  iconUrl : String
  targetCurrency : String
  authority : Pubkey
  stablecoinData : Pubkey
  stablecoinMint : Pubkey
  bondMint : Pubkey
deriving DecidableEq

/-- `StablecoinProgram.createStablecoin` (lines 87–105): builds the anchor
instruction with the fixed account list
authority, stablecoinData, stablecoinMint, bondMint, TOKEN_PROGRAM_ID,
SystemProgram.programId, SYSVAR_RENT_PUBKEY. -/
def StablecoinProgram.createStablecoin (params : CreateStablecoinParams) :
    Instruction :=
  anchorCreateStablecoin params.name params.symbol params.decimals
    params.iconUrl params.targetCurrency
    { authority := params.authority
      stablecoinData := params.stablecoinData
      stablecoinMint := params.stablecoinMint
      bondMint := params.bondMint
      tokenProgram := TOKEN_PROGRAM_ID
      systemProgram := systemProgramId
      rent := SYSVAR_RENT_PUBKEY }

/-- Result of `connection.getLatestBlockhash()`. -/
structure BlockhashInfo where
  blockhash : String
  lastValidBlockHeight : Nat
deriving DecidableEq

/-- One network call made during a run, with the arguments that matter to
the claims. -/
inductive NetCall
  /-- `connection.getLatestBlockhash()`. -/
  | getLatestBlockhash
  /-- `getMinimumBalanceForRentExemptMint(connection)`. -/
  | getRentExemptBalance
  /-- `wallet.sendTransaction(...)` / `connection.sendRawTransaction(...)`. -/
  | sendTransaction
  /-- `connection.confirmTransaction({signature, blockhash,
  lastValidBlockHeight})`. -/
  | confirmTransaction (blockhash : String) (lastValidBlockHeight : Nat)
      (signature : String)
  /-- `connection.getParsedTokenAccountsByOwner(owner, {mint})`. -/
  | getParsedTokenAccountsByOwner (owner mint : Pubkey)
deriving DecidableEq

/-- An event on the transaction envelope. -/
inductive TxEvent
  /-- `new Transaction({feePayer, blockhash, lastValidBlockHeight})`: the
  envelope is bound to fee payer and blockhash. -/
  | bindFeePayerAndBlockhash (feePayer : Pubkey) (bh : BlockhashInfo)
  /-- `transaction.add(ix)`. -/
  | appendInstruction (ix : Instruction)
  /-- `transaction.sign(...)` with the listed keypairs. -/
  | signWith (signers : List Pubkey)
deriving DecidableEq

/-- Whether an envelope event is the fee payer/blockhash binding. -/
def TxEvent.isBind : TxEvent → Bool
  | .bindFeePayerAndBlockhash .. => true
  | _ => false

/-- Whether an envelope event appends an instruction. -/
def TxEvent.isAppend : TxEvent → Bool
  | .appendInstruction _ => true
  | _ => false

/-- The assembled transaction: fee payer, blockhash pair, instructions. -/
structure TransactionEnvelope where
  feePayer : Pubkey
  blockhash : String
  lastValidBlockHeight : Nat
  instructions : List Instruction
deriving DecidableEq

/-- Terminal outcome of one submission attempt of the second revision. -/
inductive Outcome
  /-- The `!publicKey || !wallet || !connection || !program` guard fired. -/
  | noWallet
  /-- `new PublicKey(formData.bondMint)` threw while building the third
  instruction (caught by the surrounding catch). -/
  | invalidBondMint
  /-- `wallet.sendTransaction` threw. -/
  | walletError (msg : String)
  /-- The confirmed transaction carried `confirmation.value.err`; the code
  throws ``Error(`Transaction failed: ${err.toString()}`)``. -/
  | onChainError (msg : String)
  /-- Confirmed with no error: `toast.success(...)`. -/
  | success
deriving DecidableEq

/-- A full run: outcome, network-call trace, envelope events, and the
envelope as last updated (`none` when none was constructed). -/
structure RunResult where
  outcome : Outcome
  netTrace : List NetCall
  txEvents : List TxEvent
  tx : Option TransactionEnvelope
deriving DecidableEq

/-- Environment supplying the network responses of one run:
`blockhashAt k` answers the `k`-th `getLatestBlockhash` call. -/
structure RpcEnv where
  blockhashAt : Nat → BlockhashInfo
  mintRent : Nat
  /-- Result of the wallet send (`.error` models a throw). -/
  sendResult : Except String String
  /-- Result of `anchorWallet.signTransaction` (`.error` models a throw). -/
  signResult : Except String Unit
  /-- `confirmation.value.err`, `some` carrying the program error payload. -/
  confirmErr : Option String

/-- The component's form state. -/
structure FormData where
  name : String
  symbol : String
  currency : String
  icon : String
  bondMint : String
deriving DecidableEq

/-- `handleSubmit` of the second revision of `CreateStablecoin`
(`src/components/CreateStablecoin.tsx`): guard, generate keypairs, fetch
the latest blockhash, construct the transaction bound to fee payer and
blockhash, fetch the rent minimum, append create-account /
initialize-mint / create-stablecoin (parsing `formData.bondMint` while
building the third instruction), sign with the two ephemeral keypairs,
send, confirm with the same blockhash pair, and classify the result.
The two ephemeral public keys stand in for `Keypair.generate()`. -/
def handleSubmit (form : FormData) (publicKey : Option Pubkey)
    (stablecoinMint stablecoinData : Pubkey) (env : RpcEnv) : RunResult :=
  match publicKey with
  | none => ⟨.noWallet, [], [], none⟩
  | some pk =>
    let latestBlockhash := env.blockhashAt 0
    let tx0 : TransactionEnvelope :=
      ⟨pk, latestBlockhash.blockhash, latestBlockhash.lastValidBlockHeight, []⟩
    let netTrace1 : List NetCall :=
      [.getLatestBlockhash, .getRentExemptBalance]
    let txEvents0 : List TxEvent :=
      [.bindFeePayerAndBlockhash pk latestBlockhash]
    let mintRent := env.mintRent
    let ix1 : Instruction :=
      .createAccount pk stablecoinMint MINT_SIZE mintRent TOKEN_PROGRAM_ID
    let ix2 : Instruction := .initializeMint stablecoinMint 6 pk pk
    match parsePubkey form.bondMint with
    | none => ⟨.invalidBondMint, netTrace1, txEvents0, some tx0⟩
    | some bondMintPk =>
      let ix3 : Instruction :=
        anchorCreateStablecoin form.name form.symbol 6
          (if form.icon = "" then "" else form.icon) form.currency
          { authority := pk
            stablecoinData := stablecoinData
            stablecoinMint := stablecoinMint
            bondMint := bondMintPk
            tokenProgram := TOKEN_PROGRAM_ID
            systemProgram := systemProgramId
            rent := SYSVAR_RENT_PUBKEY }
      let tx1 : TransactionEnvelope := { tx0 with instructions := [ix1, ix2, ix3] }
      let txEvents1 : List TxEvent :=
        txEvents0 ++ [.appendInstruction ix1, .appendInstruction ix2,
          .appendInstruction ix3, .signWith [stablecoinMint, stablecoinData]]
      match env.sendResult with
      | .error e =>
        ⟨.walletError e, netTrace1 ++ [.sendTransaction], txEvents1, some tx1⟩
      | .ok signature =>
        let netTrace2 := netTrace1 ++ [.sendTransaction,
          .confirmTransaction latestBlockhash.blockhash
            latestBlockhash.lastValidBlockHeight signature]
        match env.confirmErr with
        | some err =>
          ⟨.onChainError ("Transaction failed: " ++ err), netTrace2,
            txEvents1, some tx1⟩
        | none => ⟨.success, netTrace2, txEvents1, some tx1⟩

/-- Terminal outcome of the first revision's `handleSubmit`. -/
inductive OutcomeV1
  /-- The `!publicKey || !sendTransaction || !connection` guard fired. -/
  | noWallet
  /-- `new PublicKey(formData.bondMint)` threw; caught locally, the
  handler toasts and returns. -/
  | invalidBondMint
  /-- `program.createStablecoin` resolved; the built instruction. -/
  | built (ix : Instruction)
deriving DecidableEq

/-- A run of the first revision: outcome plus network-call trace. -/
structure RunResultV1 where
  outcome : OutcomeV1
  netTrace : List NetCall
deriving DecidableEq

/-- `handleSubmit` of the first revision of `CreateStablecoin`
(`src/components/CreateStablecoin.tsx`, lines 91–170): guard, generate
keypairs, parse `formData.bondMint` inside a dedicated try/catch (before
any network call), then call `StablecoinProgram.createStablecoin` with
`decimals: 9`.  The call site omits the `authority` field of the method's
parameter object; the claims checked here do not depend on it, and we
supply the wallet key in its place. -/
def handleSubmitV1 (form : FormData) (publicKey : Option Pubkey)
    (stablecoinData stablecoinMint : Pubkey) : RunResultV1 :=
  match publicKey with
  | none => ⟨.noWallet, []⟩
  | some pk =>
    match parsePubkey form.bondMint with
    | none => ⟨.invalidBondMint, []⟩
    | some bondMintPk =>
      let ix := StablecoinProgram.createStablecoin
        { name := form.name
          symbol := form.symbol
          decimals := 9
          iconUrl := form.icon
          targetCurrency := form.currency
          authority := pk
          stablecoinData := stablecoinData
          stablecoinMint := stablecoinMint
          bondMint := bondMintPk }
      ⟨.built ix, []⟩

/-- The instruction a first-revision run built, when it got that far. -/
def RunResultV1.builtInstruction : RunResultV1 → Option Instruction
  | ⟨.built ix, _⟩ => some ix
  | _ => none

deriving instance DecidableEq for Except

/-- Result of a `StablecoinProgram.sendTransaction` run. -/
structure SendTxResult where
  result : Except String String
  netTrace : List NetCall
  tx : TransactionEnvelope
deriving DecidableEq

/-- `StablecoinProgram.sendTransaction` (`src/utils/stablecoin-program.ts`,
lines 107–127): fetch the latest blockhash once, set the transaction's
`recentBlockhash` and `feePayer`, have the wallet sign, send the raw
bytes, then confirm with the same blockhash/height pair. -/
def StablecoinProgram.sendTransaction (walletPk : Pubkey)
    (instructions : List Instruction) (env : RpcEnv) : SendTxResult :=
  let latestBlockhash := env.blockhashAt 0
  let tx : TransactionEnvelope :=
    ⟨walletPk, latestBlockhash.blockhash,
      latestBlockhash.lastValidBlockHeight, instructions⟩
  match env.signResult with
  | .error e => ⟨.error e, [.getLatestBlockhash], tx⟩
  | .ok _ =>
    match env.sendResult with
    | .error e => ⟨.error e, [.getLatestBlockhash, .sendTransaction], tx⟩
    | .ok signature =>
      ⟨.ok signature,
        [.getLatestBlockhash, .sendTransaction,
          .confirmTransaction latestBlockhash.blockhash
            latestBlockhash.lastValidBlockHeight signature], tx⟩

/-- A parsed token account as consumed by `checkBondBalance`
(`account.data.parsed.info.tokenAmount.uiAmount`; the numeric
representation does not matter to the claims, only which account is
consulted). -/
structure TokenAccount where
  uiAmount : Nat
deriving DecidableEq

/-- What `checkBondBalance` did to the `bondBalance` state. -/
inductive BalanceResult
  /-- The `!publicKey || !connection` guard fired; balance untouched. -/
  | noConnection
  /-- `setBondBalance(balance)` was called. -/
  | set (balance : Nat)
deriving DecidableEq

/-- `checkBondBalance` of the second revision
(`src/components/CreateStablecoin.tsx`, lines 411–443): guard, parse the
mint string, query `getParsedTokenAccountsByOwner`; on a non-empty result
set the balance to the first account's `uiAmount`, on an empty result set
it to 0, and on any throw (parse or query) set it to 0 in the catch.
`query` is the RPC response: `.error` models the call throwing. -/
def checkBondBalance (publicKey : Option Pubkey) (bondMintStr : String)
    (query : Except String (List TokenAccount)) :
    BalanceResult × List NetCall :=
  match publicKey with
  | none => (.noConnection, [])
  | some pk =>
    match parsePubkey bondMintStr with
    | none => (.set 0, [])
    | some bondMintPk =>
      match query with
      | .error _ => (.set 0, [.getParsedTokenAccountsByOwner pk bondMintPk])
      | .ok tokenAccounts =>
        match tokenAccounts with
        | [] => (.set 0, [.getParsedTokenAccountsByOwner pk bondMintPk])
        | first :: _ =>
          (.set first.uiAmount, [.getParsedTokenAccountsByOwner pk bondMintPk])

/-- Scan check: after a fee payer/blockhash binding, no instruction is
appended. -/
def noAppendAfterBind : List TxEvent → Bool
  | [] => true
  | e :: rest =>
    if e.isBind then rest.all (fun x => !x.isAppend) && noAppendAfterBind rest
    else noAppendAfterBind rest

/-- Scan check: no instruction is appended before the first fee
payer/blockhash binding. -/
def noAppendBeforeBind : List TxEvent → Bool
  | [] => true
  | e :: rest =>
    if e.isAppend then false
    else if e.isBind then true
    else noAppendBeforeBind rest

/-- A concrete valid bond-mint string: 32 `'1'` characters decode to the
32-byte zero address (the system program's address). -/
def sampleBondStr : String := "11111111111111111111111111111111"

/-- A concrete wallet key for witnesses. -/
def samplePk : Pubkey := ⟨"WalletAuthority1111111111111111111111111111"⟩

/-- A concrete ephemeral mint key for witnesses. -/
def sampleMintPk : Pubkey := ⟨"StablecoinMint11111111111111111111111111111"⟩

/-- A concrete ephemeral data key for witnesses. -/
def sampleDataPk : Pubkey := ⟨"StablecoinData11111111111111111111111111111"⟩

/-- A concrete filled form with a valid bond mint. -/
def sampleForm : FormData :=
  ⟨"Peso Stable", "MXNS", "MXN", "https://example.com/icon", sampleBondStr⟩

/-- The same form with a bond mint that does not parse. -/
def sampleFormBad : FormData :=
  ⟨"Peso Stable", "MXNS", "MXN", "https://example.com/icon", "not-an-address"⟩

/-- A concrete benign environment for witnesses. -/
def sampleEnv : RpcEnv :=
  ⟨fun _ => ⟨"FwRYtTPRk5N4wUeP87rTw9Kh1wNT6ohvjEbicwHrjvYz", 250000⟩,
    1461600, .ok "sig1", .ok (), none⟩

example : parsePubkey sampleBondStr = some ⟨sampleBondStr⟩ := by decide
example : parsePubkey "not-an-address" = none := by decide

/-- C1: the claim requires one fixed `decimals` constant across the whole
creation flow; evaluating both shipped revisions on the same input shows
the first revision hands the program instruction decimals 9 while the
second uses 6 for both the initialize-mint and the program instruction,
so no single constant is used consistently. -/
theorem c1_decimals_divergence :
    ((handleSubmitV1 sampleForm (some samplePk) sampleDataPk
        sampleMintPk).builtInstruction.bind Instruction.decimalsArg = some 9) ∧
    ((handleSubmit sampleForm (some samplePk) sampleMintPk sampleDataPk
        sampleEnv).tx.map (fun tx => tx.instructions.map Instruction.decimalsArg) =
      some [none, some 6, some 6]) ∧
    ((handleSubmitV1 sampleForm (some samplePk) sampleDataPk
        sampleMintPk).builtInstruction.bind Instruction.decimalsArg ≠ some 6) := by
  decide

/-- C2 counterexample: in the second revision a bond mint that does not
parse still lets the blockhash fetch and the rent query happen before the
parse error is raised, refuting "terminates before any network call" for
every submission. -/
theorem c2_network_calls_precede_validation :
    ((handleSubmit sampleFormBad (some samplePk) sampleMintPk sampleDataPk
        sampleEnv).outcome = .invalidBondMint) ∧
    ((handleSubmit sampleFormBad (some samplePk) sampleMintPk sampleDataPk
        sampleEnv).netTrace = [.getLatestBlockhash, .getRentExemptBalance]) := by
  decide

/-- C2 amended: with an unparseable bond mint, the first revision raises
the validation error before any network call, while the second revision
also terminates with the error and never broadcasts or queries a balance,
but only after the blockhash fetch and the rent query have been made. -/
theorem c2_invalid_bondMint_behaviour (form : FormData) (pk mint data : Pubkey)
    (env : RpcEnv) (h : parsePubkey form.bondMint = none) :
    ((handleSubmitV1 form (some pk) data mint).outcome = .invalidBondMint) ∧
    ((handleSubmitV1 form (some pk) data mint).netTrace = []) ∧
    ((handleSubmit form (some pk) mint data env).outcome = .invalidBondMint) ∧
    ((handleSubmit form (some pk) mint data env).netTrace =
      [.getLatestBlockhash, .getRentExemptBalance]) := by
  simp [handleSubmitV1, handleSubmit, h]

/-- C2 witness: the amended behaviour at the concrete input
`"not-an-address"`. -/
theorem c2_invalid_bondMint_behaviour_witness :
    ((handleSubmitV1 sampleFormBad (some samplePk) sampleDataPk
        sampleMintPk).outcome = .invalidBondMint) ∧
    ((handleSubmitV1 sampleFormBad (some samplePk) sampleDataPk
        sampleMintPk).netTrace = []) ∧
    ((handleSubmit sampleFormBad (some samplePk) sampleDataPk sampleMintPk
        sampleEnv).outcome = .invalidBondMint) ∧
    ((handleSubmit sampleFormBad (some samplePk) sampleDataPk sampleMintPk
        sampleEnv).netTrace = [.getLatestBlockhash, .getRentExemptBalance]) :=
  c2_invalid_bondMint_behaviour sampleFormBad samplePk sampleDataPk
    sampleMintPk sampleEnv (by decide)

/-- C3 counterexample: on a concrete run of the second revision the
envelope is bound to its fee payer and blockhash at construction and the
three instructions are appended afterwards, so "no instruction is added
after the binding" (and a fortiori "every append precedes the binding")
fails. -/
theorem c3_appends_follow_binding :
    noAppendAfterBind (handleSubmit sampleForm (some samplePk) sampleMintPk
      sampleDataPk sampleEnv).txEvents = false := by
  decide

/-- C3 amended: in every run the fee payer/blockhash binding happens
exactly once, at envelope construction, and no instruction is appended
before it; all appends follow the single binding. -/
theorem c3_binding_precedes_appends (form : FormData) (pk mint data : Pubkey)
    (env : RpcEnv) :
    (((handleSubmit form (some pk) mint data env).txEvents.filter
        TxEvent.isBind).length = 1) ∧
    (noAppendBeforeBind
      (handleSubmit form (some pk) mint data env).txEvents = true) := by
  cases h : parsePubkey form.bondMint <;>
    cases hs : env.sendResult <;> cases hc : env.confirmErr <;>
      simp [handleSubmit, h, hs, hc, noAppendBeforeBind, TxEvent.isBind,
        TxEvent.isAppend, List.filter]

/-- C4: whenever the bond mint parses, the assembled transaction holds
exactly three instructions, in the order create-account, initialize-mint,
create-stablecoin, whatever the other input values are. -/
theorem c4_three_instructions_fixed_order (form : FormData)
    (pk mint data bond : Pubkey) (env : RpcEnv)
    (h : parsePubkey form.bondMint = some bond) :
    (handleSubmit form (some pk) mint data env).tx.map
        (fun tx => tx.instructions.map Instruction.kind) =
      some [.createAccount, .initializeMint, .createStablecoin] := by
  cases hs : env.sendResult <;> cases hc : env.confirmErr <;>
    simp [handleSubmit, h, hs, hc, anchorCreateStablecoin, Instruction.kind]

/-- C4 witness: the fixed instruction order on a concrete valid form. -/
theorem c4_three_instructions_fixed_order_witness :
    (handleSubmit sampleForm (some samplePk) sampleMintPk sampleDataPk
        sampleEnv).tx.map (fun tx => tx.instructions.map Instruction.kind) =
      some [.createAccount, .initializeMint, .createStablecoin] :=
  c4_three_instructions_fixed_order sampleForm samplePk sampleMintPk
    sampleDataPk ⟨sampleBondStr⟩ sampleEnv (by decide)

/-- C5: the create-stablecoin builder binds exactly the ordered account
list authority, stablecoinData, stablecoinMint, bondMint, token-program,
system-program, rent-sysvar — both in the `StablecoinProgram` class method
for arbitrary parameters and in the second revision's assembled
transaction. -/
theorem c5_fixed_account_order (params : CreateStablecoinParams)
    (form : FormData) (pk mint data bond : Pubkey) (env : RpcEnv)
    (h : parsePubkey form.bondMint = some bond) :
    ((StablecoinProgram.createStablecoin params).boundAccounts =
      some [params.authority, params.stablecoinData, params.stablecoinMint,
        params.bondMint, TOKEN_PROGRAM_ID, systemProgramId,
        SYSVAR_RENT_PUBKEY]) ∧
    ((handleSubmit form (some pk) mint data env).tx.map
        (fun tx => tx.instructions.map Instruction.boundAccounts) =
      some [none, none,
        some [pk, data, mint, bond, TOKEN_PROGRAM_ID, systemProgramId,
          SYSVAR_RENT_PUBKEY]]) := by
  constructor
  · rfl
  · cases hs : env.sendResult <;> cases hc : env.confirmErr <;>
      simp [handleSubmit, h, hs, hc, anchorCreateStablecoin,
        Instruction.boundAccounts]

/-- C5 witness: the fixed account order on concrete inputs. -/
theorem c5_fixed_account_order_witness :
    ((StablecoinProgram.createStablecoin
        ⟨"Peso Stable", "MXNS", 9, "", "MXN", samplePk, sampleDataPk,
          sampleMintPk, ⟨sampleBondStr⟩⟩).boundAccounts =
      some [samplePk, sampleDataPk, sampleMintPk, ⟨sampleBondStr⟩,
        TOKEN_PROGRAM_ID, systemProgramId, SYSVAR_RENT_PUBKEY]) ∧
    ((handleSubmit sampleForm (some samplePk) sampleMintPk sampleDataPk
        sampleEnv).tx.map
        (fun tx => tx.instructions.map Instruction.boundAccounts) =
      some [none, none,
        some [samplePk, sampleDataPk, sampleMintPk, ⟨sampleBondStr⟩,
          TOKEN_PROGRAM_ID, systemProgramId, SYSVAR_RENT_PUBKEY]]) :=
  c5_fixed_account_order
    ⟨"Peso Stable", "MXNS", 9, "", "MXN", samplePk, sampleDataPk,
      sampleMintPk, ⟨sampleBondStr⟩⟩
    sampleForm samplePk sampleMintPk sampleDataPk ⟨sampleBondStr⟩ sampleEnv
    (by decide)

/-- C6: within one attempt a single `getLatestBlockhash` call is made, the
envelope is bound to exactly the fetched blockhash/height pair, and every
confirmation poll uses that identical pair — both in the second revision's
`handleSubmit` and in `StablecoinProgram.sendTransaction`. -/
theorem c6_one_blockhash_pair (form : FormData)
    (pk walletPk mint data bond : Pubkey) (ixs : List Instruction)
    (env : RpcEnv) (h : parsePubkey form.bondMint = some bond) :
    (((handleSubmit form (some pk) mint data env).netTrace.filter
        (fun c => c == NetCall.getLatestBlockhash)).length = 1) ∧
    (∃ tx, (handleSubmit form (some pk) mint data env).tx = some tx ∧
      tx.blockhash = (env.blockhashAt 0).blockhash ∧
      tx.lastValidBlockHeight = (env.blockhashAt 0).lastValidBlockHeight) ∧
    (∀ b hgt s, NetCall.confirmTransaction b hgt s ∈
        (handleSubmit form (some pk) mint data env).netTrace →
      b = (env.blockhashAt 0).blockhash ∧
      hgt = (env.blockhashAt 0).lastValidBlockHeight) ∧
    (((StablecoinProgram.sendTransaction walletPk ixs env).netTrace.filter
        (fun c => c == NetCall.getLatestBlockhash)).length = 1) ∧
    ((StablecoinProgram.sendTransaction walletPk ixs env).tx.blockhash =
      (env.blockhashAt 0).blockhash) ∧
    ((StablecoinProgram.sendTransaction walletPk ixs env).tx.lastValidBlockHeight =
      (env.blockhashAt 0).lastValidBlockHeight) ∧
    (∀ b hgt s, NetCall.confirmTransaction b hgt s ∈
        (StablecoinProgram.sendTransaction walletPk ixs env).netTrace →
      b = (env.blockhashAt 0).blockhash ∧
      hgt = (env.blockhashAt 0).lastValidBlockHeight) := by
  cases hs : env.sendResult <;> cases hc : env.confirmErr <;>
    cases hg : env.signResult <;>
      simp [handleSubmit, StablecoinProgram.sendTransaction, h, hs, hc, hg] <;>
        exact fun b hgt s hb hh _ => ⟨hb, hh⟩

/-- C6 witness: the single blockhash pair property on concrete inputs. -/
theorem c6_one_blockhash_pair_witness :
    (((handleSubmit sampleForm (some samplePk) sampleMintPk sampleDataPk
        sampleEnv).netTrace.filter
        (fun c => c == NetCall.getLatestBlockhash)).length = 1) ∧
    (∃ tx, (handleSubmit sampleForm (some samplePk) sampleMintPk sampleDataPk
        sampleEnv).tx = some tx ∧
      tx.blockhash = (sampleEnv.blockhashAt 0).blockhash ∧
      tx.lastValidBlockHeight = (sampleEnv.blockhashAt 0).lastValidBlockHeight) ∧
    (∀ b hgt s, NetCall.confirmTransaction b hgt s ∈
        (handleSubmit sampleForm (some samplePk) sampleMintPk sampleDataPk
          sampleEnv).netTrace →
      b = (sampleEnv.blockhashAt 0).blockhash ∧
      hgt = (sampleEnv.blockhashAt 0).lastValidBlockHeight) ∧
    (((StablecoinProgram.sendTransaction samplePk [] sampleEnv).netTrace.filter
        (fun c => c == NetCall.getLatestBlockhash)).length = 1) ∧
    ((StablecoinProgram.sendTransaction samplePk [] sampleEnv).tx.blockhash =
      (sampleEnv.blockhashAt 0).blockhash) ∧
    ((StablecoinProgram.sendTransaction samplePk []
        sampleEnv).tx.lastValidBlockHeight =
      (sampleEnv.blockhashAt 0).lastValidBlockHeight) ∧
    (∀ b hgt s, NetCall.confirmTransaction b hgt s ∈
        (StablecoinProgram.sendTransaction samplePk [] sampleEnv).netTrace →
      b = (sampleEnv.blockhashAt 0).blockhash ∧
      hgt = (sampleEnv.blockhashAt 0).lastValidBlockHeight) :=
  c6_one_blockhash_pair sampleForm samplePk samplePk sampleMintPk
    sampleDataPk ⟨sampleBondStr⟩ [] sampleEnv (by decide)

/-- C7: when the token-account query succeeds with an empty list, the
balance check sets the balance to 0 and reports no error. -/
theorem c7_no_account_means_zero (pk bond : Pubkey) (s : String)
    (h : parsePubkey s = some bond) :
    checkBondBalance (some pk) s (.ok []) =
      (.set 0, [.getParsedTokenAccountsByOwner pk bond]) := by
  simp [checkBondBalance, h]

/-- C7 witness: the zero balance on a concrete owner/mint pair. -/
theorem c7_no_account_means_zero_witness :
    checkBondBalance (some samplePk) sampleBondStr (.ok []) =
      (.set 0, [.getParsedTokenAccountsByOwner samplePk ⟨sampleBondStr⟩]) :=
  c7_no_account_means_zero samplePk ⟨sampleBondStr⟩ sampleBondStr (by decide)

/-- C9: when the token-account query itself throws, the balance is set to
0 and no error escapes, giving exactly the same observable result as an
empty (zero-holding) query. -/
theorem c9_query_failure_reads_as_zero (pk bond : Pubkey) (s e : String)
    (h : parsePubkey s = some bond) :
    (checkBondBalance (some pk) s (.error e) =
      (.set 0, [.getParsedTokenAccountsByOwner pk bond])) ∧
    (checkBondBalance (some pk) s (.error e) =
      checkBondBalance (some pk) s (.ok [])) := by
  simp [checkBondBalance, h]

/-- C9 witness: a concrete failing query is indistinguishable from an
empty one. -/
theorem c9_query_failure_reads_as_zero_witness :
    (checkBondBalance (some samplePk) sampleBondStr (.error "rpc down") =
      (.set 0, [.getParsedTokenAccountsByOwner samplePk ⟨sampleBondStr⟩])) ∧
    (checkBondBalance (some samplePk) sampleBondStr (.error "rpc down") =
      checkBondBalance (some samplePk) sampleBondStr (.ok [])) :=
  c9_query_failure_reads_as_zero samplePk ⟨sampleBondStr⟩ sampleBondStr
    "rpc down" (by decide)

/-- C10: on a non-empty query result the balance check reports the first
account's amount only: the tail of the list never influences the result,
and whenever the total over all accounts differs from the first amount the
reported balance is not that total. -/
theorem c10_first_account_only (pk bond : Pubkey) (s : String)
    (h : parsePubkey s = some bond) (a : TokenAccount)
    (rest rest2 : List TokenAccount) :
    ((checkBondBalance (some pk) s (.ok (a :: rest))).1 = .set a.uiAmount) ∧
    ((checkBondBalance (some pk) s (.ok (a :: rest))).1 =
      (checkBondBalance (some pk) s (.ok (a :: rest2))).1) ∧
    (((a :: rest).map TokenAccount.uiAmount).sum ≠ a.uiAmount →
      (checkBondBalance (some pk) s (.ok (a :: rest))).1 ≠
        .set (((a :: rest).map TokenAccount.uiAmount).sum)) := by
  refine ⟨?_, ?_, ?_⟩ <;> simp [checkBondBalance, h]

/-- C10 witness: with accounts holding 5 and 7, the reported balance is 5,
ignores the second account, and is not the total 12. -/
theorem c10_first_account_only_witness :
    ((checkBondBalance (some samplePk) sampleBondStr
        (.ok [⟨5⟩, ⟨7⟩])).1 = .set 5) ∧
    ((checkBondBalance (some samplePk) sampleBondStr
        (.ok [⟨5⟩, ⟨7⟩])).1 =
      (checkBondBalance (some samplePk) sampleBondStr (.ok [⟨5⟩])).1) ∧
    ((([⟨5⟩, ⟨7⟩] : List TokenAccount).map TokenAccount.uiAmount).sum ≠ 5 →
      (checkBondBalance (some samplePk) sampleBondStr
        (.ok [⟨5⟩, ⟨7⟩])).1 ≠
        .set ((([⟨5⟩, ⟨7⟩] : List TokenAccount).map
          TokenAccount.uiAmount).sum)) :=
  c10_first_account_only samplePk ⟨sampleBondStr⟩ sampleBondStr (by decide)
    ⟨5⟩ [⟨7⟩] []

/-- C8: once the transaction is sent and a confirmation result observed,
a present error payload yields the on-chain error carrying that payload,
an absent one yields success, and these are the only two outcomes. -/
theorem c8_confirmation_outcomes (form : FormData) (pk mint data bond : Pubkey)
    (env : RpcEnv) (sig : String) (h : parsePubkey form.bondMint = some bond)
    (hs : env.sendResult = .ok sig) :
    (∀ e, env.confirmErr = some e →
      (handleSubmit form (some pk) mint data env).outcome =
        .onChainError ("Transaction failed: " ++ e)) ∧
    (env.confirmErr = none →
      (handleSubmit form (some pk) mint data env).outcome = .success) ∧
    ((handleSubmit form (some pk) mint data env).outcome = .success ∨
      ∃ e, (handleSubmit form (some pk) mint data env).outcome =
        .onChainError ("Transaction failed: " ++ e)) := by
  cases hc : env.confirmErr <;> simp [handleSubmit, h, hs, hc]

/-- C8 witness: the success outcome on a concrete confirmed run with no
error payload. -/
theorem c8_confirmation_outcomes_witness :
    (∀ e, sampleEnv.confirmErr = some e →
      (handleSubmit sampleForm (some samplePk) sampleMintPk sampleDataPk
        sampleEnv).outcome = .onChainError ("Transaction failed: " ++ e)) ∧
    (sampleEnv.confirmErr = none →
      (handleSubmit sampleForm (some samplePk) sampleMintPk sampleDataPk
        sampleEnv).outcome = .success) ∧
    ((handleSubmit sampleForm (some samplePk) sampleMintPk sampleDataPk
        sampleEnv).outcome = .success ∨
      ∃ e, (handleSubmit sampleForm (some samplePk) sampleMintPk sampleDataPk
        sampleEnv).outcome = .onChainError ("Transaction failed: " ++ e)) :=
  c8_confirmation_outcomes sampleForm samplePk sampleMintPk sampleDataPk
    ⟨sampleBondStr⟩ sampleEnv "sig1" (by decide) rfl
